import Mathlib

/-!
Verification development for the tool-execution and time-normalization
engine of the `livex` scheduling assistant (source files `api.py`,
`utils.py`, `cal_utils.py`, `config.py`, `app.py`).

Shallow embedding conventions:
* Character strings that only matter through containment / case tests are
  modelled as lists of Unicode code points (`List Nat`); Python `str.upper`
  is modelled on the ASCII range it affects for the strings at hand.
* Calendar dates are day indices (`Nat`, days since an arbitrary epoch);
  UTC instants in the slot pipeline are seconds (`dayStartInstant`,
  `dayEndInstant`); instants in the booking/time-normalization pipeline are
  minutes since an arbitrary epoch (the display format shows minutes).
* A `pytz` timezone object is modelled by the two distinct offsets the
  source exercises: the offset that `datetime.replace(tzinfo=z)` attaches
  (pytz stores the first transition of the zone, its local mean time,
  until `localize` is applied) and the offset `astimezone(z)` uses for a
  given instant.
* Remote HTTP outcomes are passed in as explicit values (`CalResp`), one
  per call site that can be reached; a Python exception escaping
  `execute_tool` is modelled as `Except.error (e : PyExc)`.
-/

/-- Model of Python `str.upper` on one code point: ASCII lowercase letters
map to uppercase, everything else is unchanged. -/
def pyUpper (n : Nat) : Nat := if 97 ≤ n ∧ n ≤ 122 then n - 32 else n

/-- Does `needle` occur at the head of `hay`? (helper for substring test) -/
def leadsWith : List Nat → List Nat → Bool
  | [], _ => true
  | _ :: _, [] => false
  | a :: as, b :: bs => a == b && leadsWith as bs

/-- Model of the Python `needle in hay` substring test. -/
def occursIn (needle : List Nat) : List Nat → Bool
  | [] => leadsWith needle []
  | h :: t => leadsWith needle (h :: t) || occursIn needle t

/-- Model of `s.split('/')[0]`: the code points before the first slash. -/
def takeBeforeSlash (l : List Nat) : List Nat := l.takeWhile (fun c => c ≠ 47)

/-- The condition at `utils.py:17` selecting interpretation (b):
`st.session_state.timezone.split('/')[0] in time_str.upper()`. -/
def tz_region_mentioned (tzChars textChars : List Nat) : Bool :=
  occursIn (takeBeforeSlash tzChars) (textChars.map pyUpper)

/-- The condition at `utils.py:20`: `time_str.endswith("Z")`. -/
def endsWithZ (textChars : List Nat) : Bool := textChars.getLast? == some 90

/-- Code points of the default caller timezone string
`"America/Los_Angeles"` (`app.py:29`). -/
def losAngelesChars : List Nat :=
  [65, 109, 101, 114, 105, 99, 97, 47, 76, 111, 115, 95, 65, 110, 103, 101,
   108, 101, 115]

/-- A pytz timezone as the source exercises it. `replaceOffset` is the UTC
offset (in minutes) that `datetime.replace(tzinfo=z)` attaches: pytz zone
objects carry the first offset of the zone (local mean time) until
`localize` is called, e.g. -473 (UTC-7:53) for America/Los_Angeles.
`offsetAt` is the UTC offset (in minutes) that `astimezone(z)` applies at a
given UTC instant. -/
structure PyTz where
  replaceOffset : Int
  offsetAt : Int → Int

/-- A date/time argument string, abstracted to its code points and the
outcome of `dateutil.parser.parse` on it: `parsedWall` is the wall-clock
value written in the text, in minutes (none when parsing raises), and
`parsedOffset` is the UTC offset the parser attached (none when the parsed
datetime is naive). -/
structure TimeText where
  chars : List Nat
  parsedWall : Option Int
  parsedOffset : Option Int
deriving DecidableEq

/-- Failure modes of `parse_to_utc_iso` (`utils.py:11-30`): an unparsable
text, or a resolved instant strictly before now. -/
inductive PErr where
  | invalid
  | past
deriving DecidableEq

/-- Shallow embedding of `parse_to_utc_iso` (`utils.py:11-30`), returning
the resolved UTC instant in minutes.  Branch (b) fires when the first
slash-component of the caller timezone occurs in the uppercased text and
converts via `astimezone` (a naive parse is interpreted in the system
timezone `sysOffset`); branch (a) fires when the text ends in `Z`;
branch (c) attaches the caller timezone with `replace(tzinfo=...)`, hence
uses `replaceOffset`.  A resolved instant strictly before `now` raises. -/
def parse_to_utc_iso (tzChars : List Nat) (z : PyTz) (sysOffset : Int)
    (t : TimeText) (now : Int) : Except PErr Int :=
  match t.parsedWall with
  | none => .error .invalid
  | some w =>
    let instant : Int :=
      if tz_region_mentioned tzChars t.chars then
        match t.parsedOffset with
        | some o => w - o
        | none => w - sysOffset
      else if endsWithZ t.chars then
        match t.parsedOffset with
        | some o => w - o
        | none => w - sysOffset
      else w - z.replaceOffset
    if instant < now then .error .past else .ok instant

/-- Shallow embedding of `utc_to_local_display` (`utils.py:74-84`): the
local wall-clock value (minutes) rendered in the display string, obtained
by `astimezone(local_tz)`. -/
def utc_to_local_display (utc : Int) (z : PyTz) : Int := utc + z.offsetAt utc

/-- `MAX_DURATION_SECONDS` (`utils.py:9`). -/
def MAX_DURATION_SECONDS : Nat := 31536000

/-- A duration argument as seen by `int(seconds)`: a numeric value, or one
whose conversion raises `ValueError` or `TypeError`. -/
inductive DurArg where
  | num (n : Int)
  | bad
deriving DecidableEq

/-- Shallow embedding of `validate_duration_seconds` (`utils.py:47-60`). -/
def validate_duration_seconds : DurArg → Nat
  | .bad => MAX_DURATION_SECONDS
  | .num n =>
    if n < 1 then MAX_DURATION_SECONDS
    else if n > (MAX_DURATION_SECONDS : Int) then MAX_DURATION_SECONDS
    else n.toNat

/-- The `start_date` argument of `get_available_slots`, after JSON
decoding: the literal `"today"` (or the empty default), the literal
`"tomorrow"`, or any other string, carried with the result of
`strptime(date_str, "%Y-%m-%d")` on it (`parsed`, a day index, none when
strptime raises) and the outcome `ltTodayLocalStr` of the Python string
comparison `date_str < today_str` against the local-timezone today inside
`validate_date` (`utils.py:39`). -/
inductive StartArg where
  | todayLit
  | tomorrowLit
  | other (parsed : Option Nat) (ltTodayLocalStr : Bool)
deriving DecidableEq

/-- The substring tests on the raw user text that `get_available_slots`
performs (`api.py:101-108`): presence of "week", of "month" or "30 days",
and of "tomorrow" or "show my slots". -/
structure UserHints where
  hasWeek : Bool
  hasMonth : Bool
  hasTomorrowOrShow : Bool
deriving DecidableEq

/-- The `start_date` string after the repairs of `api.py:106-109`: either
a canonical `%Y-%m-%d` rendering of a day index (produced by `strftime`),
or the raw caller-supplied string. -/
inductive StartStr where
  | canon (d : Nat)
  | raw (parsed : Option Nat) (ltTodayLocalStr : Bool)
deriving DecidableEq

/-- Lines `api.py:106-109`: literal "today" or empty becomes today;
literal "tomorrow", or "tomorrow"/"show my slots" in the user text,
becomes tomorrow (both rendered with `strftime` from the UTC clock). -/
def resolve_start_text (a : StartArg) (hintTomorrow : Bool) (todayUTC : Nat) :
    StartStr :=
  match a with
  | .todayLit => .canon todayUTC
  | .tomorrowLit => .canon (todayUTC + 1)
  | .other p lt => if hintTomorrow then .canon (todayUTC + 1) else .raw p lt

/-- Shallow embedding of `validate_date` (`utils.py:32-45`), called as
`validate_date(start_date, today_str)` (`api.py:110`), returning the day
index of the resulting string.  The default is the UTC today string; the
past test compares against the local-timezone today.  For two canonical
zero-padded `%Y-%m-%d` strings the Python string comparison agrees with
the numeric date order; for a raw string the comparison outcome is carried
in the argument. -/
def validate_date (s : StartStr) (defaultD todayLocal : Nat) : Nat :=
  match s with
  | .canon d => if d < todayLocal then defaultD else d
  | .raw none _ => defaultD
  | .raw (some p) lt => if lt then defaultD else p

/-- Line `api.py:117`: `strptime(start_date) + timedelta(seconds=duration)`
then `strftime("%Y-%m-%d")` — the calendar date reached `durationSeconds`
after midnight of `startDate`. -/
def calculated_end (startDate durationSeconds : Nat) : Nat :=
  startDate + durationSeconds / 86400

/-- A caller-supplied `end_date` string, abstracted to the calendar date
`dtparsed` that `dateutil.parser.parse` extracts from it (none when it
raises, `api.py:123`) and the date `strptimeD` that the later strict
`strptime(end_date, "%Y-%m-%d")` extracts (`api.py:140`; none when the
string is not in that exact format). -/
structure EndText where
  dtparsed : Option Nat
  strptimeD : Option Nat
deriving DecidableEq

/-- The `end_date` string after `api.py:121-136`: either a canonical
`%Y-%m-%d` rendering of the calculated end, or the supplied string kept
verbatim. -/
inductive EndStr where
  | canon (d : Nat)
  | kept (t : EndText)
deriving DecidableEq

/-- Shallow embedding of the end-date resolution (`api.py:116-136`): an
absent (or empty) `end_date` argument and a supplied one that fails to
parse or whose calendar date differs from the calculated end are replaced
by the calculated end; a supplied one whose calendar date matches is kept
verbatim. -/
def resolve_end_date (calcEnd : Nat) (e : Option EndText) : EndStr :=
  match e with
  | none => .canon calcEnd
  | some t =>
    match t.dtparsed with
    | none => .canon calcEnd
    | some d => if d ≠ calcEnd then .canon calcEnd else .kept t

/-- The validated `TimeWindow` of the slot pipeline, as calendar-day
indices; the query instants are fixed to the day boundaries by
`dayStartInstant` and `dayEndInstant` (`api.py:156-157`). -/
structure TimeWindow where
  startDate : Nat
  endDate : Nat
deriving DecidableEq

/-- `api.py:156`: `start_iso = f"{start_date}T00:00:00Z"` — seconds since
epoch of 00:00:00Z on the given day. -/
def dayStartInstant (d : Nat) : Nat := 86400 * d

/-- `api.py:157`: `end_iso = f"{end_date}T23:59:59Z"` — seconds since
epoch of 23:59:59Z on the given day. -/
def dayEndInstant (d : Nat) : Nat := 86400 * d + 86399

/-- The date-range validation block (`api.py:137-155`): re-parse both date
strings with strict `strptime` (the start string always re-parses, having
been produced by `strftime` or already vetted by `validate_date`; a kept
caller-supplied end string may fail, raising the `ValueError` caught at
`api.py:152`), pull a past start up to today (UTC), and recompute an end
that lies before the start as start plus the duration. -/
def validate_date_range (s1 : Nat) (es : EndStr) (durV todayUTC : Nat) :
    Except Unit TimeWindow :=
  let eObj : Option Nat :=
    match es with
    | .canon d => some d
    | .kept t => t.strptimeD
  match eObj with
  | none => .error ()
  | some e0 =>
    let s2 := if s1 < todayUTC then todayUTC else s1
    let e1 := if e0 < s2 then s2 + durV / 86400 else e0
    .ok ⟨s2, e1⟩

/-- The full window-validation pipeline of `get_available_slots`
(`api.py:100-157`): the user-text duration overrides (`604800` for "week",
`2592000` for "month"/"30 days"), start repair, `validate_date`, duration
clamping, calculated end, end-date resolution, and the final range pass. -/
def resolve_window (a : StartArg) (e : Option EndText) (dArg : DurArg)
    (hints : UserHints) (todayUTC todayLocal : Nat) : Except Unit TimeWindow :=
  let dur1 : DurArg :=
    if hints.hasWeek then .num 604800
    else if hints.hasMonth then .num 2592000
    else dArg
  let s0 := resolve_start_text a hints.hasTomorrowOrShow todayUTC
  let s1 := validate_date s0 todayUTC todayLocal
  let durV := validate_duration_seconds dur1
  let calcE := calculated_end s1 durV
  let es := resolve_end_date calcE e
  validate_date_range s1 es durV todayUTC

/-- The event identifier carried by a `/v2/slots` request: the slug of the
primary attempt, or the hardcoded numeric `eventTypeId` of the fallbacks
(`api.py:166`, `api.py:203`). -/
inductive EventIdent where
  | slug (s : String)
  | idNum (n : Nat)
deriving DecidableEq

/-- One attempted `/v2/slots` request: identifier plus the queried window
as day indices (the instants sent are `dayStartInstant wStart` and
`dayEndInstant wEnd`). -/
structure SlotsReq where
  ident : EventIdent
  wStart : Nat
  wEnd : Nat
deriving DecidableEq

/-- One slot entry of the remote response: the value of its `start` key
as a UTC instant in minutes (none models a missing `start` key, for which
`slot.get("start", "N/A")` yields the sentinel skipped at `api.py:260`). -/
structure SlotEntry where
  start : Option Int
deriving DecidableEq

/-- The per-date value in the response mapping: a list of slots, or a
non-list value skipped with a warning (`api.py:253`). -/
inductive SlotVal where
  | list (ss : List SlotEntry)
  | notList
deriving DecidableEq

/-- The `data` mapping of a successful `/v2/slots` response: per-date slot
lists, in response order. -/
def SlotsData := List (String × SlotVal)

/-- Outcome of one remote `/v2/slots` call: parsed JSON on 2xx, or a
`requests.RequestException` carrying `getattr(e.response, "status_code",
"N/A")` (none models the `"N/A"` of a transport failure with no response)
and the response body text. -/
inductive CalResp where
  | ok (d : SlotsData)
  | fail (status : Option Nat) (body : String)

/-- A rendered slot line `- {display_time} (UTC: {start})`
(`api.py:269`): the local display wall-clock minutes and the UTC start. -/
structure DisplayLine where
  displayWall : Int
  utcStart : Int
deriving DecidableEq

/-- A Python exception escaping, or caught inside, `execute_tool`. -/
inductive PyExc where
  | unboundLocal (v : String)
  | attributeNoneGet
  | attributeStrResponse
deriving DecidableEq

/-- The result message of the `get_available_slots` handler, structured by
the f-string that produces it. -/
inductive SlotsMsg where
  | slots (lines : List DisplayLine)
  | noSlots (startD endD : Nat)
  | allFailed (startD endD altStart altEnd : Nat) (lastBody : String)
  | errorFromException (e : PyExc)
  | invalidDateFormat
deriving DecidableEq

/-- Slot-list rendering (`api.py:245-283`): empty `data` yields the
no-slots message; otherwise per-date lists are flattened in response
order, entries without a `start` key are dropped, each survivor is
rendered with `utc_to_local_display`, the list is truncated to `count`,
and an empty final list again yields the no-slots message. -/
def render_slots (w : TimeWindow) (d : SlotsData) (count : Nat) (z : PyTz) :
    SlotsMsg :=
  if d.isEmpty then .noSlots w.startDate w.endDate
  else
    let lines := d.flatMap (fun p =>
      match p.2 with
      | .notList => []
      | .list ss => ss.filterMap (fun s =>
          s.start.map (fun i => (⟨utc_to_local_display i z, i⟩ : DisplayLine))))
    let lines := if lines.length > count then lines.take count else lines
    if lines.isEmpty then .noSlots w.startDate w.endDate else .slots lines

/-- Result of running the `get_available_slots` handler: the `/v2/slots`
requests attempted, in order, and the message returned.  The handler body
sits inside a catch-all `except Exception` (`api.py:284-287`), so no
exception escapes this branch; in particular the `return` at `api.py:244`
evaluates the never-assigned local `err`, and the resulting
`UnboundLocalError` is converted by the catch-all into the
`Error retrieving slots: str(e)` message. -/
structure SlotsRun where
  attempts : List SlotsReq
  msg : SlotsMsg

/-- Shallow embedding of the slot-retrieval fallback chain
(`api.py:163-287`), given the validated window.  `r1` answers the primary
slug request; on HTTP 404 the identical window is retried with
`eventTypeId = 3854203` (`api.py:201-213`, answered by `r2`); if that
fails with any error, the alternate window `[today+7, today+14]` is tried
(`api.py:221-234`, answered by `r3`); if that also fails the message names
both windows and carries the last error body (`api.py:242`).  A non-404
primary failure takes the `api.py:243-244` branch, which evaluates the
unbound local `err`. -/
def run_get_available_slots (todayUTC : Nat) (w : TimeWindow) (slug : String)
    (count : Nat) (z : PyTz) (r1 r2 r3 : CalResp) : SlotsRun :=
  let primary : SlotsReq := ⟨.slug slug, w.startDate, w.endDate⟩
  match r1 with
  | .ok d => ⟨[primary], render_slots w d count z⟩
  | .fail s1 _ =>
    if s1 = some 404 then
      let fbA : SlotsReq := ⟨.idNum 3854203, w.startDate, w.endDate⟩
      match r2 with
      | .ok d => ⟨[primary, fbA], render_slots w d count z⟩
      | .fail _ _ =>
        let altS := todayUTC + 7
        let altE := todayUTC + 14
        let fbB : SlotsReq := ⟨.idNum 3854203, altS, altE⟩
        match r3 with
        | .ok d => ⟨[primary, fbA, fbB], render_slots w d count z⟩
        | .fail _ b3 =>
          ⟨[primary, fbA, fbB],
           .allFailed w.startDate w.endDate altS altE b3⟩
    else ⟨[primary], .errorFromException (.unboundLocal "err")⟩

/-- JSON values appearing in the booking request body. -/
inductive Jv where
  | s (v : String)
  | i (v : Int)
  | arr (vs : List String)
  | obj (fs : List (String × Jv))

/-- Model of Python `str.title` on ASCII text: a letter is uppercased when
the previous character is not a letter and lowercased otherwise. -/
def pyTitle (l : List Char) : List Char :=
  (l.foldl (fun st c =>
      let c2 := if c.isAlpha then (if st.1 then c.toLower else c.toUpper) else c
      (c.isAlpha, c2 :: st.2)) (false, [])).2.reverse

/-- `USER_EMAIL.split("@")[0].title()` (`api.py:311`): the attendee name
derived from the configured email. -/
def attendee_name (email : String) : String :=
  ⟨pyTitle (email.toList.takeWhile (fun c => c ≠ Char.ofNat 64))⟩

/-- The request body built at `api.py:309-315`, as the ordered key-value
list of the Python dict literal: keys `start`, `attendee`,
`eventTypeSlug`, `username`, `guests` — and nothing else; the `title`
argument is not used. -/
def create_booking_body (userEmail username eventSlug : String)
    (startUtc : Int) (guests : List String) : List (String × Jv) :=
  [("start", .i startUtc),
   ("attendee", .obj [("email", .s userEmail),
                      ("name", .s (attendee_name userEmail)),
                      ("timeZone", .s "UTC")]),
   ("eventTypeSlug", .s eventSlug),
   ("username", .s username),
   ("guests", .arr guests)]

/-- Looks up a key in a body, as `"k" in body` / `body["k"]` would. -/
def lookupKey (body : List (String × Jv)) (k : String) : Option Jv :=
  (body.find? (fun p => p.1 == k)).map (fun p => p.2)

/-- Removes a key from a body, as `del body["k"]` would. -/
def delKey (body : List (String × Jv)) (k : String) : List (String × Jv) :=
  body.filter (fun p => p.1 ≠ k)

/-- The parsed JSON of a successful `/v2/bookings` response, reduced to
the fields the handler reads (`api.py:341-342`): `data.uid`,
`data.startTime`, `data.start`. -/
structure BookingData where
  uid : Option String
  startTime : Option Int
  start : Option Int
deriving DecidableEq

/-- Outcome of one `call_cal_api` call: `(data, None)` on 2xx or
`(None, errText)` on any `requests.RequestException`
(`cal_utils.py:24-38`). -/
inductive BookResp where
  | ok (d : BookingData)
  | fail (errText : String)
deriving DecidableEq

/-- The result message of the `create_booking` handler. -/
inductive CBMsg where
  | invalidStart (e : PErr)
  | tooSoon (displayWall : Int) (utc : Int)
  | created (uid : Option String) (displayWall : Option Int)
  | createFailed (errText : String)
deriving DecidableEq

/-- Result of running the `create_booking` handler: the bodies submitted
to `/v2/bookings`, in order, and either a returned message or a Python
exception escaping `execute_tool` (the `try` at `api.py:325` catches only
`requests.RequestException`). -/
structure CBRun where
  sent : List (List (String × Jv))
  result : Except PyExc CBMsg

/-- Shallow embedding of the `create_booking` handler (`api.py:289-353`).
The start text is resolved by `parse_to_utc_iso`; a `ValueError` (parse
failure or past time) returns the invalid-start message with no request
sent (`api.py:298-300`).  An instant before `now + 120` minutes returns
the too-soon message with no request sent (`api.py:301-306`).  Otherwise
the body is submitted; on a remote error the code retries without the
`description` field only if the body has one (`api.py:333-340`), and
otherwise falls through to `data.get("data", {})` with `data = None`,
raising `AttributeError` (`api.py:341`), which no enclosing handler
catches. -/
def run_create_booking (userEmail username eventSlug : String)
    (tzChars : List Nat) (z : PyTz) (sysOffset : Int) (t : TimeText)
    (now : Int) (_title : String) (guests : List String) (r1 r2 : BookResp) :
    CBRun :=
  match parse_to_utc_iso tzChars z sysOffset t now with
  | .error e => ⟨[], .ok (.invalidStart e)⟩
  | .ok inst =>
    if inst < now + 120 then
      ⟨[], .ok (.tooSoon (utc_to_local_display inst z) inst)⟩
    else
      let body := create_booking_body userEmail username eventSlug inst guests
      match r1 with
      | .fail _ =>
        if (lookupKey body "description").isSome then
          let body2 := delKey body "description"
          match r2 with
          | .fail e2 => ⟨[body, body2], .ok (.createFailed e2)⟩
          | .ok d =>
            ⟨[body, body2],
             .ok (.created d.uid
               ((d.startTime.or d.start).map (fun i =>
                  utc_to_local_display i z)))⟩
        else ⟨[body], .error .attributeNoneGet⟩
      | .ok d =>
        ⟨[body],
         .ok (.created d.uid
           ((d.startTime.or d.start).map (fun i =>
              utc_to_local_display i z)))⟩

/-- The result message of the `cancel_booking` handler. -/
inductive CancelMsg where
  | missingUid
  | canceled
deriving DecidableEq

/-- Result of running the `cancel_booking` handler: whether a request was
sent, and either a returned message or an escaping Python exception. -/
structure CancelRun where
  sentRequest : Bool
  result : Except PyExc CancelMsg

/-- Shallow embedding of the `cancel_booking` handler (`api.py:354-398`).
A missing or empty `booking_uid` returns immediately with no request.  On
a remote error, `call_cal_api` has returned the error as a string, and
`api.py:378` evaluates `err.response.text` on that string: the resulting
`AttributeError` is caught neither by the inner `except
json.JSONDecodeError` nor by the outer `except requests.RequestException`,
so it escapes `execute_tool`. -/
def run_cancel_booking (uid : Option String) (r1 : BookResp) : CancelRun :=
  match uid with
  | none => ⟨false, .ok .missingUid⟩
  | some _ =>
    match r1 with
    | .fail _ => ⟨true, .error .attributeStrResponse⟩
    | .ok _ => ⟨true, .ok .canceled⟩

/-- The pytz `America/Los_Angeles` zone as the source exercises it during
Pacific Daylight Time: `datetime.replace(tzinfo=z)` attaches the first
(local-mean-time) offset of the zone, UTC-7:53, i.e. -473 minutes; at the
instants considered here (summer 2026) `astimezone(z)` applies the PDT
offset UTC-7:00, i.e. -420 minutes. -/
def pytzLosAngelesPDT : PyTz := ⟨-473, fun _ => -420⟩

/-- Code points of `"3 PM America/Los_Angeles"` — a time text that
explicitly names the caller timezone region — with its dateutil result
abstracted as the naive wall value 100000 minutes. -/
def regionNamingText : TimeText :=
  ⟨[51, 32, 80, 77, 32, 65, 109, 101, 114, 105, 99, 97, 47, 76, 111, 115,
    95, 65, 110, 103, 101, 108, 101, 115], some 100000, none⟩

/-- Code points of `"06/15/2026 10:00 AM"` — a bare local time text —
with its dateutil result abstracted as the naive wall value 100000
minutes (an instant in summer 2026). -/
def bareLocalText : TimeText :=
  ⟨[48, 54, 47, 49, 53, 47, 50, 48, 50, 54, 32, 49, 48, 58, 48, 48, 32,
    65, 77], some 100000, none⟩

/-- Code points of `"2020-01-01T00:00:00Z"` — a UTC-tagged text — with a
dateutil wall value of 1999 minutes at UTC offset 0: an instant one
minute before a clock reading `now = 2000`. -/
def pastUtcText : TimeText :=
  ⟨[50, 48, 50, 48, 45, 48, 49, 45, 48, 49, 84, 48, 48, 58, 48, 48, 58,
    48, 48, 90], some 1999, some 0⟩

/-- The same UTC-tagged text shape with a dateutil wall value of 10000
minutes at UTC offset 0 — a comfortably future instant for `now = 0`. -/
def futureUtcText : TimeText :=
  ⟨[50, 48, 50, 48, 45, 48, 49, 45, 48, 49, 84, 48, 48, 58, 48, 48, 58,
    48, 48, 90], some 10000, some 0⟩

/-- The same UTC-tagged text shape with a dateutil wall value of 119
minutes at UTC offset 0 — inside the 120-minute notice window for
`now = 0`. -/
def soonUtcText : TimeText :=
  ⟨[50, 48, 50, 48, 45, 48, 49, 45, 48, 49, 84, 48, 48, 58, 48, 48, 58,
    48, 48, 90], some 119, some 0⟩

/-- Recognizer for the too-soon outcome of the `create_booking` handler
(the message of `api.py:306`). -/
def isTooSoonResult : Except PyExc CBMsg → Bool
  | .ok (.tooSoon _ _) => true
  | _ => false

theorem leadsWith_mem {needle hay : List Nat} (h : leadsWith needle hay = true) :
    ∀ n, n ∈ needle → n ∈ hay := by
  induction needle generalizing hay with
  | nil => intro n hn; cases hn
  | cons a as ih =>
    cases hay with
    | nil => simp [leadsWith] at h
    | cons b bs =>
      simp only [leadsWith, Bool.and_eq_true, beq_iff_eq] at h
      obtain ⟨hab, hrest⟩ := h
      intro n hn
      rcases List.mem_cons.mp hn with rfl | hn2
      · subst hab; exact List.mem_cons_self _ _
      · exact List.mem_cons_of_mem _ (ih hrest n hn2)

theorem occursIn_mem {needle hay : List Nat} (h : occursIn needle hay = true) :
    ∀ n, n ∈ needle → n ∈ hay := by
  induction hay with
  | nil => exact leadsWith_mem h
  | cons b bs ih =>
    simp only [occursIn, Bool.or_eq_true] at h
    rcases h with h1 | h2
    · exact leadsWith_mem h1
    · intro n hn; exact List.mem_cons_of_mem _ (ih h2 n hn)

theorem pyUpper_ne_lower (m n : Nat) (h1 : 97 ≤ n) (h2 : n ≤ 122) :
    pyUpper m ≠ n := by
  unfold pyUpper; split <;> omega

theorem not_mem_map_pyUpper {hay : List Nat} {n : Nat}
    (h1 : 97 ≤ n) (h2 : n ≤ 122) : n ∉ hay.map pyUpper := by
  intro hmem
  obtain ⟨m, _, hm⟩ := List.mem_map.mp hmem
  exact pyUpper_ne_lower m n h1 h2 hm

/-- C9: refuted as stated — the case-(b) interpretation of
`parse_to_utc_iso` is unreachable for the caller timezone
`America/Los_Angeles` (and every other selectable timezone, whose first
slash-component likewise contains lowercase letters): the condition at
`utils.py:17` asks whether the mixed-case component (here `"America"`,
containing the lowercase code 109) occurs in the fully uppercased text,
which is impossible.  Consequently a text that explicitly names the
region, such as `"3 PM America/Los_Angeles"`, is not converted from that
region: it falls through to the bare-local branch (c), whose result uses
the replace-offset (100000 + 473), not a region-based conversion. -/
theorem C9_case_b_unreachable :
    (∀ text : List Nat, tz_region_mentioned losAngelesChars text = false) ∧
    parse_to_utc_iso losAngelesChars pytzLosAngelesPDT (-300)
      regionNamingText 0 = .ok 100473 := by
  constructor
  · intro text
    cases hx : tz_region_mentioned losAngelesChars text with
    | false => rfl
    | true =>
      exfalso
      unfold tz_region_mentioned at hx
      have h109 : (109 : Nat) ∈ takeBeforeSlash losAngelesChars := by decide
      exact not_mem_map_pyUpper (by decide) (by decide)
        (occursIn_mem hx 109 h109)
  · rfl

/-- C8: refuted on the code — for a bare local time in the default caller
timezone the round trip gains 53 minutes.  `parse_to_utc_iso` converts via
`dtparser.parse(s).replace(tzinfo=local_tz)` (`utils.py:23`), which
attaches the pytz base offset UTC-7:53 of America/Los_Angeles, while
`utc_to_local_display` converts back via `astimezone` (`utils.py:79`),
which applies the true offset (UTC-7:00 in summer): `"06/15/2026 10:00 AM"`
is displayed as 10:53 AM local.  The repository itself uses the correct
`localize` pattern elsewhere (`utils.py:67`, `api.py:297`). -/
theorem C8_roundtrip_fails :
    parse_to_utc_iso losAngelesChars pytzLosAngelesPDT (-420)
      bareLocalText 0 = .ok 100473 ∧
    utc_to_local_display 100473 pytzLosAngelesPDT = 100053 ∧
    (100053 : Int) ≠ 100000 := by
  refine ⟨rfl, rfl, by decide⟩

/-- C4: refuted as stated — a duration below the lower bound is not
clamped to the nearest bound 1; `validate_duration_seconds` returns the
one-year ceiling for it (`utils.py:51-53`). -/
theorem C4_counterexample :
    validate_duration_seconds (.num 0) = 31536000 ∧ (31536000 : Nat) ≠ 1 := by
  exact ⟨rfl, by decide⟩

/-- C4 (amended): for every duration outside `[1, 31536000]` and for
non-numeric input, `validate_duration_seconds` returns the one-year
ceiling 31536000 (durations above the range are clamped to the upper
bound; durations below the range also default to the upper bound, not to
1); the validated duration always lies in `[1, 31536000]`. -/
theorem C4_amended (d : DurArg) :
    (∀ n : Int, d = .num n → n > 31536000 →
      validate_duration_seconds d = 31536000) ∧
    (∀ n : Int, d = .num n → n < 1 →
      validate_duration_seconds d = 31536000) ∧
    (d = .bad → validate_duration_seconds d = 31536000) ∧
    1 ≤ validate_duration_seconds d ∧
    validate_duration_seconds d ≤ 31536000 := by
  refine ⟨?_, ?_, ?_, ?_, ?_⟩
  · rintro n rfl hn
    simp only [validate_duration_seconds, MAX_DURATION_SECONDS]
    split
    · rfl
    · split
      · rfl
      · omega
  · rintro n rfl hn
    simp only [validate_duration_seconds, MAX_DURATION_SECONDS]
    split
    · rfl
    · omega
  · rintro rfl; rfl
  · cases d with
    | bad => decide
    | num n =>
      simp only [validate_duration_seconds, MAX_DURATION_SECONDS]
      split
      · decide
      · split
        · decide
        · omega
  · cases d with
    | bad => decide
    | num n =>
      simp only [validate_duration_seconds, MAX_DURATION_SECONDS]
      split
      · decide
      · split
        · decide
        · omega

/-- Witness for C4 (amended) at concrete inputs: 40000000 seconds clamps
to the ceiling, 0 seconds defaults to the ceiling, non-numeric input
defaults to the ceiling, and a validated duration lies in range. -/
theorem C4_amended_witness :
    validate_duration_seconds (.num 40000000) = 31536000 ∧
    validate_duration_seconds (.num 0) = 31536000 ∧
    validate_duration_seconds .bad = 31536000 ∧
    1 ≤ validate_duration_seconds (.num 0) := by
  refine ⟨(C4_amended (.num 40000000)).1 40000000 rfl (by decide),
    (C4_amended (.num 0)).2.1 0 rfl (by decide),
    (C4_amended .bad).2.2.1 rfl,
    (C4_amended (.num 0)).2.2.2.1⟩

/-- C2: refuted as stated — a start time resolving to an instant strictly
before `now` (hence strictly before `now + 120` minutes) does not fail
with the too-soon outcome: `parse_to_utc_iso` raises on past instants
(`utils.py:24-26`) and the handler turns that into the invalid-start
message (`api.py:298-300`).  At the concrete input (a UTC-tagged text one
minute before `now = 2000`) the result is the invalid-start outcome, not
too-soon; no request is sent. -/
theorem C2_counterexample :
    (run_create_booking "mhuo.live@gmail.com" "michaelhuo" "30min"
        losAngelesChars pytzLosAngelesPDT (-420) pastUtcText 2000 "Meeting"
        [] (.ok ⟨none, none, none⟩) (.ok ⟨none, none, none⟩)).result =
      .ok (.invalidStart .past) ∧
    isTooSoonResult
      (run_create_booking "mhuo.live@gmail.com" "michaelhuo" "30min"
        losAngelesChars pytzLosAngelesPDT (-420) pastUtcText 2000 "Meeting"
        [] (.ok ⟨none, none, none⟩) (.ok ⟨none, none, none⟩)).result = false ∧
    (run_create_booking "mhuo.live@gmail.com" "michaelhuo" "30min"
        losAngelesChars pytzLosAngelesPDT (-420) pastUtcText 2000 "Meeting"
        [] (.ok ⟨none, none, none⟩) (.ok ⟨none, none, none⟩)).sent = [] := by
  exact ⟨rfl, rfl, rfl⟩

/-- C2 (amended): a CreateBooking call whose start time resolves (without
raising) to an instant strictly before `now + 120` minutes — i.e. an
instant in `[now, now + 120)` — always fails with the too-soon outcome
and sends no request; a start time whose resolution raises (unparsable,
or an instant strictly before `now`) fails with the invalid-start outcome
and likewise sends no request. -/
theorem C2_amended (uE uN sl : String) (tzChars : List Nat) (z : PyTz)
    (so : Int) (t : TimeText) (now : Int) (title : String)
    (g : List String) (r1 r2 : BookResp) :
    (∀ i : Int, parse_to_utc_iso tzChars z so t now = .ok i →
      i < now + 120 →
      (run_create_booking uE uN sl tzChars z so t now title g r1 r2).result =
        .ok (.tooSoon (utc_to_local_display i z) i) ∧
      (run_create_booking uE uN sl tzChars z so t now title g r1 r2).sent =
        []) ∧
    (∀ e : PErr, parse_to_utc_iso tzChars z so t now = .error e →
      (run_create_booking uE uN sl tzChars z so t now title g r1 r2).result =
        .ok (.invalidStart e) ∧
      (run_create_booking uE uN sl tzChars z so t now title g r1 r2).sent =
        []) := by
  constructor
  · intro i hok hlt
    simp [run_create_booking, hok, hlt]
  · intro e herr
    simp [run_create_booking, herr]

/-- Witness for C2 (amended): a UTC-tagged start 119 minutes after
`now = 0` resolves successfully, falls inside the notice window, and
yields the too-soon outcome with no request sent; the past text of the
counterexample yields the invalid-start outcome with no request sent. -/
theorem C2_amended_witness :
    ((run_create_booking "mhuo.live@gmail.com" "michaelhuo" "30min"
        losAngelesChars pytzLosAngelesPDT (-420) soonUtcText 0 "Meeting"
        [] (.ok ⟨none, none, none⟩) (.ok ⟨none, none, none⟩)).result =
      .ok (.tooSoon (-301) 119) ∧
     (run_create_booking "mhuo.live@gmail.com" "michaelhuo" "30min"
        losAngelesChars pytzLosAngelesPDT (-420) soonUtcText 0 "Meeting"
        [] (.ok ⟨none, none, none⟩) (.ok ⟨none, none, none⟩)).sent = []) ∧
    ((run_create_booking "mhuo.live@gmail.com" "michaelhuo" "30min"
        losAngelesChars pytzLosAngelesPDT (-420) pastUtcText 2000 "Meeting"
        [] (.ok ⟨none, none, none⟩) (.ok ⟨none, none, none⟩)).result =
      .ok (.invalidStart .past) ∧
     (run_create_booking "mhuo.live@gmail.com" "michaelhuo" "30min"
        losAngelesChars pytzLosAngelesPDT (-420) pastUtcText 2000 "Meeting"
        [] (.ok ⟨none, none, none⟩) (.ok ⟨none, none, none⟩)).sent = []) := by
  exact ⟨(C2_amended "mhuo.live@gmail.com" "michaelhuo" "30min"
      losAngelesChars pytzLosAngelesPDT (-420) soonUtcText 0 "Meeting"
      [] (.ok ⟨none, none, none⟩) (.ok ⟨none, none, none⟩)).1 119 rfl
      (by decide),
    (C2_amended "mhuo.live@gmail.com" "michaelhuo" "30min"
      losAngelesChars pytzLosAngelesPDT (-420) pastUtcText 2000 "Meeting"
      [] (.ok ⟨none, none, none⟩) (.ok ⟨none, none, none⟩)).2 .past rfl⟩

/-- C3: refuted on the code — `execute_tool` can raise.  When the remote
service rejects a create_booking request (any non-2xx), `call_cal_api`
returns `(None, errText)`, the body contains no `description` field so
the retry at `api.py:333-340` is skipped, and `api.py:341` evaluates
`data.get("data", {})` on `None`, raising `AttributeError`, which the
`except requests.RequestException` at `api.py:347` does not catch.  When
the remote service rejects a cancel_booking request, `api.py:378`
evaluates `err.response.text` on the error string, raising
`AttributeError` past both enclosing handlers. -/
theorem C3_non_2xx_rejection_raises :
    (run_create_booking "mhuo.live@gmail.com" "michaelhuo" "30min"
        losAngelesChars pytzLosAngelesPDT (-420) futureUtcText 0 "Meeting"
        [] (.fail "500 body") (.ok ⟨none, none, none⟩)).result =
      .error .attributeNoneGet ∧
    (run_cancel_booking (some "uid1") (.fail "500 body")).result =
      .error .attributeStrResponse := by
  exact ⟨rfl, rfl⟩

/-- C10: for every CreateBooking call, the submitted body is exactly the
five-key dict of `api.py:309-315` (`start`, `attendee`, `eventTypeSlug`,
`username`, `guests`); it has no `title` key and no `description` key;
the `title` argument has no effect on what is sent (the sent list is a
function of the other arguments only); and anything sent is exactly that
body for the instant the start time resolved to. -/
theorem C10_body_shape (uE uN sl : String) (i : Int) (g : List String)
    (tzChars : List Nat) (z : PyTz) (so : Int) (t : TimeText) (now : Int)
    (t1 t2 : String) (r1 r2 : BookResp) :
    (create_booking_body uE uN sl i g).map Prod.fst =
      ["start", "attendee", "eventTypeSlug", "username", "guests"] ∧
    lookupKey (create_booking_body uE uN sl i g) "title" = none ∧
    lookupKey (create_booking_body uE uN sl i g) "description" = none ∧
    (run_create_booking uE uN sl tzChars z so t now t1 g r1 r2).sent =
      (run_create_booking uE uN sl tzChars z so t now t2 g r1 r2).sent ∧
    ((run_create_booking uE uN sl tzChars z so t now t1 g r1 r2).sent = [] ∨
      ∃ j : Int, parse_to_utc_iso tzChars z so t now = .ok j ∧
        (run_create_booking uE uN sl tzChars z so t now t1 g r1 r2).sent =
          [create_booking_body uE uN sl j g]) := by
  refine ⟨rfl, rfl, rfl, rfl, ?_⟩
  cases hp : parse_to_utc_iso tzChars z so t now with
  | error e => left; simp [run_create_booking, hp]
  | ok j =>
    by_cases hlt : j < now + 120
    · left; simp [run_create_booking, hp, hlt]
    · right
      refine ⟨j, rfl, ?_⟩
      cases r1 with
      | ok d => simp [run_create_booking, hp, hlt]
      | fail e1 =>
        simp [run_create_booking, hp, hlt, lookupKey, create_booking_body]

/-- C1: confirmed — when the primary slug request fails with HTTP 404 and
both fallbacks fail, the orchestrator attempts exactly the identical
window with `eventTypeId = 3854203`, then the alternate window
`[today+7, today+14]` (regardless of the requested window), and returns
the message naming the original and alternate windows with the last error
body; a non-404 primary failure triggers no fallback attempt; a
successful Fallback A stops the chain before Fallback B. -/
theorem C1_fallback_chain (todayUTC : Nat) (w : TimeWindow) (slug : String)
    (count : Nat) (z : PyTz) (b1 b2 b3 : String) (s1 s2 s3 : Option Nat)
    (r2 r3 : CalResp) (d : SlotsData) :
    (run_get_available_slots todayUTC w slug count z (.fail (some 404) b1)
        (.fail s2 b2) (.fail s3 b3) =
      ⟨[⟨.slug slug, w.startDate, w.endDate⟩,
        ⟨.idNum 3854203, w.startDate, w.endDate⟩,
        ⟨.idNum 3854203, todayUTC + 7, todayUTC + 14⟩],
       .allFailed w.startDate w.endDate (todayUTC + 7) (todayUTC + 14) b3⟩) ∧
    (s1 ≠ some 404 →
      (run_get_available_slots todayUTC w slug count z (.fail s1 b1)
          r2 r3).attempts = [⟨.slug slug, w.startDate, w.endDate⟩]) ∧
    ((run_get_available_slots todayUTC w slug count z (.fail (some 404) b1)
        (.ok d) r3).attempts =
      [⟨.slug slug, w.startDate, w.endDate⟩,
       ⟨.idNum 3854203, w.startDate, w.endDate⟩]) := by
  refine ⟨rfl, ?_, rfl⟩
  intro hne
  simp [run_get_available_slots, hne]

/-- Witness for C1 at concrete inputs: the full three-tier failure
produces the three attempts and the all-failed message; an HTTP 500
primary failure stops after one attempt; a successful Fallback A stops
after two attempts. -/
theorem C1_fallback_chain_witness :
    (run_get_available_slots 100 ⟨100, 101⟩ "30min" 10 ⟨0, fun _ => 0⟩
        (.fail (some 404) "nf") (.fail (some 404) "nf2")
        (.fail (some 500) "boom") =
      ⟨[⟨.slug "30min", 100, 101⟩, ⟨.idNum 3854203, 100, 101⟩,
        ⟨.idNum 3854203, 107, 114⟩],
       .allFailed 100 101 107 114 "boom"⟩) ∧
    ((run_get_available_slots 100 ⟨100, 101⟩ "30min" 10 ⟨0, fun _ => 0⟩
        (.fail (some 500) "boom") (.ok []) (.ok [])).attempts =
      [⟨.slug "30min", 100, 101⟩]) ∧
    ((run_get_available_slots 100 ⟨100, 101⟩ "30min" 10 ⟨0, fun _ => 0⟩
        (.fail (some 404) "nf") (.ok []) (.ok [])).attempts =
      [⟨.slug "30min", 100, 101⟩, ⟨.idNum 3854203, 100, 101⟩]) := by
  refine ⟨(C1_fallback_chain 100 ⟨100, 101⟩ "30min" 10 ⟨0, fun _ => 0⟩
      "nf" "nf2" "boom" (some 500) (some 404) (some 500) (.ok []) (.ok [])
      []).1,
    (C1_fallback_chain 100 ⟨100, 101⟩ "30min" 10 ⟨0, fun _ => 0⟩
      "boom" "x" "y" (some 500) none none (.ok []) (.ok []) []).2.1
      (by decide),
    (C1_fallback_chain 100 ⟨100, 101⟩ "30min" 10 ⟨0, fun _ => 0⟩
      "nf" "x" "y" (some 404) none none (.ok []) (.ok []) []).2.2⟩

/-- C7: refuted on the code at the concrete failing input — for a non-404
primary failure no fallback tier is attempted (one request only), but the
returned message does not surface the remote status or body: the `return`
at `api.py:243-244` evaluates the never-assigned local `err`, the
resulting `UnboundLocalError` is caught by the catch-all at
`api.py:284-287`, and the message carries the text of that exception
instead of the remote body `"remote body"`. -/
theorem C7_non404_message_loses_body :
    (run_get_available_slots 100 ⟨100, 101⟩ "30min" 10 ⟨0, fun _ => 0⟩
        (.fail (some 500) "remote body") (.ok []) (.ok [])).attempts =
      [⟨.slug "30min", 100, 101⟩] ∧
    (run_get_available_slots 100 ⟨100, 101⟩ "30min" 10 ⟨0, fun _ => 0⟩
        (.fail (some 500) "remote body") (.ok []) (.ok [])).msg =
      .errorFromException (.unboundLocal "err") := by
  exact ⟨rfl, rfl⟩

/-- The final range pass alone guarantees the window invariants. -/
theorem validate_date_range_inv (s1 : Nat) (es : EndStr)
    (durV todayUTC : Nat) (w : TimeWindow)
    (hw : validate_date_range s1 es durV todayUTC = .ok w) :
    todayUTC ≤ w.startDate ∧ w.startDate ≤ w.endDate := by
  simp only [validate_date_range] at hw
  split at hw
  · exact absurd hw (by simp)
  · injection hw with hw2
    subst hw2
    simp only []
    constructor
    · split <;> omega
    · split
      · split <;> omega
      · split <;> omega

/-- C5: confirmed — every window the validation pipeline produces has its
start date no earlier than today (UTC), start no later than end, and the
query instants fixed to the day boundaries 00:00:00Z and 23:59:59Z of the
start and end dates. -/
theorem C5_window_invariants (a : StartArg) (e : Option EndText)
    (dArg : DurArg) (h : UserHints) (todayUTC todayLocal : Nat)
    (w : TimeWindow)
    (hw : resolve_window a e dArg h todayUTC todayLocal = .ok w) :
    todayUTC ≤ w.startDate ∧ w.startDate ≤ w.endDate ∧
    dayStartInstant w.startDate ≤ dayEndInstant w.endDate := by
  unfold resolve_window at hw
  have hinv := validate_date_range_inv _ _ _ _ _ hw
  refine ⟨hinv.1, hinv.2, ?_⟩
  have h2 := hinv.2
  simp only [dayStartInstant, dayEndInstant]
  omega

/-- Witness for C5 at a concrete input: the default window for today. -/
theorem C5_window_invariants_witness :
    100 ≤ (100 : Nat) ∧ (100 : Nat) ≤ 101 ∧
    dayStartInstant 100 ≤ dayEndInstant 101 := by
  exact C5_window_invariants .todayLit none (.num 86400)
    ⟨false, false, false⟩ 100 100 ⟨100, 101⟩ rfl

/-- C6: confirmed — in the end-date resolution of `get_available_slots`,
an absent end argument yields the calculated end `start + duration`; a
supplied end that fails to parse, or whose calendar date differs from the
calculated end, is discarded in favour of the calculated end; a supplied
end that parses to exactly the calculated end calendar date is kept
verbatim. -/
theorem C6_end_date_resolution (s1 durV : Nat) (t : EndText) :
    resolve_end_date (calculated_end s1 durV) none =
      .canon (calculated_end s1 durV) ∧
    (t.dtparsed = some (calculated_end s1 durV) →
      resolve_end_date (calculated_end s1 durV) (some t) = .kept t) ∧
    (t.dtparsed = none →
      resolve_end_date (calculated_end s1 durV) (some t) =
        .canon (calculated_end s1 durV)) ∧
    (∀ d : Nat, t.dtparsed = some d → d ≠ calculated_end s1 durV →
      resolve_end_date (calculated_end s1 durV) (some t) =
        .canon (calculated_end s1 durV)) := by
  refine ⟨rfl, ?_, ?_, ?_⟩
  · intro hp
    simp [resolve_end_date, hp]
  · intro hp
    simp [resolve_end_date, hp]
  · intro d hp hne
    simp [resolve_end_date, hp, hne]

/-- Witness for C6 at concrete inputs: start 300 with a one-day duration
calculates end 301; a supplied end parsing to 301 is kept; an unparsable
supplied end and a supplied end parsing to 302 are both replaced by 301;
an absent end yields 301. -/
theorem C6_end_date_resolution_witness :
    resolve_end_date (calculated_end 300 86400) none = .canon 301 ∧
    resolve_end_date (calculated_end 300 86400)
      (some ⟨some 301, some 301⟩) = .kept ⟨some 301, some 301⟩ ∧
    resolve_end_date (calculated_end 300 86400) (some ⟨none, none⟩) =
      .canon 301 ∧
    resolve_end_date (calculated_end 300 86400)
      (some ⟨some 302, some 302⟩) = .canon 301 := by
  refine ⟨(C6_end_date_resolution 300 86400 ⟨some 301, some 301⟩).1,
    (C6_end_date_resolution 300 86400 ⟨some 301, some 301⟩).2.1 rfl,
    (C6_end_date_resolution 300 86400 ⟨none, none⟩).2.2.1 rfl,
    (C6_end_date_resolution 300 86400 ⟨some 302, some 302⟩).2.2.2 302 rfl
      (by decide)⟩
